import Mathlib

/-!
Verification development for the chemistry-laboratory management repository.

The repository contains two parallel implementations of the same domain model:

* the split variant, files `models.py`, `managers.py`, `laboratory_system.py`,
  `calculators.py` — embedded below in the namespaces `Models`, `Managers` and
  `Labsys` (one namespace per file, `ResultCalculator` for `calculators.py`);
* the monolithic script `Laboratorio Quimico.py` (staged as
  `src/unnamed/part_000`) — embedded in the namespace `Mono`.

Modelling conventions: Python floats are embedded as `ℚ`; a Python dict keyed
by strings is an association list `List (String × α)` in insertion order, with
`getKey?` for `d.get(k)` / `k in d` and `setKey` for `d[k] = v`; calendar dates
are abstract day ordinals `Int` (the string format of the boundary is out of
scope); a `datetime.now()` instant is a day ordinal paired with the microseconds
elapsed since midnight; Python statements that can raise return `Except PyErr`.
In-place mutation becomes explicit state passing: a method that mutates its
object returns the updated object.
-/

/-- Lookup in a Python dict modelled as an association list: the first binding
of the key, `none` when the key is absent. -/
def getKey? {α : Type} : List (String × α) → String → Option α
  | [], _ => none
  | (k', v) :: rest, k => if k' = k then some v else getKey? rest k

/-- Python dict assignment `d[k] = v`: replaces the binding in place when the
key is present (keeping its position), appends a new binding otherwise. -/
def setKey {α : Type} : List (String × α) → String → α → List (String × α)
  | [], k, v => [(k, v)]
  | (k', v') :: rest, k, v =>
    if k' = k then (k, v) :: rest else (k', v') :: setKey rest k v

/-- Python runtime errors raised by the modelled code paths. -/
inductive PyErr where
  | valueError
  | zeroDivisionError
  | attributeError
deriving DecidableEq, Repr

/-- One `datetime.now()` instant: the calendar day as an abstract day ordinal,
and the microseconds elapsed since that day's midnight. A bare calendar date
(`datetime.date`) is just the `Int` day ordinal. -/
structure PyDateTime where
  day : Int
  usec : Nat
deriving DecidableEq, Repr

/-- Python `str.strip()`: whitespace dropped from both ends, modelled over the
character list. -/
def pyStrip (s : String) : String :=
  String.mk (((s.data.dropWhile Char.isWhitespace).reverse.dropWhile
    Char.isWhitespace).reverse)

namespace Validator

/-- Models `Validator.validate_string` (monolithic script lines 19-24, imported
and used by `models.py`): a string that is empty after stripping is rejected
with ValueError, otherwise the stripped string is returned. -/
def validate_string (s : String) : Except PyErr String :=
  if pyStrip s = "" then .error .valueError else .ok (pyStrip s)

/-- Models `Validator.validate_positive_number` (monolithic script lines 26-35):
a number that is not strictly positive is rejected with ValueError. -/
def validate_positive_number (q : ℚ) : Except PyErr ℚ :=
  if q ≤ 0 then .error .valueError else .ok q

end Validator

namespace Models

/-- One transaction record appended by `Reagent.update_inventory`
(`models.py` lines 102-107). -/
structure Transaction where
  date : Int
  amount : ℚ
  reason : String
  new_level : ℚ
deriving DecidableEq, Repr

/-- The `Reagent` class of `models.py` (lines 17-183): the fields its
constructor assigns. `expiry_date` is the parsed date (midnight of the stored
day ordinal) or `none`; `safety_info` is the free-form mapping. -/
structure Reagent where
  name : String
  description : String
  cost : ℚ
  category : String
  inventory : ℚ
  unit : String
  min_threshold : ℚ
  expiry_date : Option Int
  location : String
  safety_info : List (String × String)
  purchase_history : List Transaction
  usage_history : List Transaction
deriving DecidableEq, Repr

/-- Models `Reagent.update_inventory` (`models.py` lines 84-114): a change that
would drive the inventory negative is rejected (returns `false`) with no
mutation; otherwise the inventory is set and one transaction is appended, to
`purchase_history` when the amount is positive, else to `usage_history`. -/
def Reagent.update_inventory (r : Reagent) (today : Int) (amount : ℚ)
    (reason : String) : Reagent × Bool :=
  let new_inventory := r.inventory + amount
  if new_inventory < 0 then (r, false)
  else
    let transaction : Transaction :=
      { date := today, amount := amount, reason := reason,
        new_level := new_inventory }
    if 0 < amount then
      ({ r with inventory := new_inventory,
                purchase_history := r.purchase_history ++ [transaction] }, true)
    else
      ({ r with inventory := new_inventory,
                usage_history := r.usage_history ++ [transaction] }, true)

/-- Models `Reagent.is_expired` (`models.py` lines 116-125): Python compares the
full timestamp `datetime.now()` strictly against the expiry date parsed at
midnight (`datetime.now() > self.expiry_date`); with no expiry date it returns
false. -/
def Reagent.is_expired (r : Reagent) (now : PyDateTime) : Bool :=
  match r.expiry_date with
  | none => false
  | some e => decide (e < now.day ∨ (e = now.day ∧ 0 < now.usec))

/-- Models `Reagent.is_low_stock` (`models.py` lines 127-134). -/
def Reagent.is_low_stock (r : Reagent) : Bool :=
  decide (r.inventory ≤ r.min_threshold)

/-- The dictionary produced by `Reagent.to_dict` (`models.py` lines 136-156):
one field per serialized key. -/
structure ReagentDict where
  name : String
  description : String
  cost : ℚ
  category : String
  inventory : ℚ
  unit : String
  min_threshold : ℚ
  expiry_date : Option Int
  location : String
  safety_info : List (String × String)
  purchase_history : List Transaction
  usage_history : List Transaction
deriving DecidableEq, Repr

/-- Models `Reagent.to_dict` (`models.py` lines 136-156): a field-for-field
snapshot of the reagent. -/
def Reagent.to_dict (r : Reagent) : ReagentDict :=
  { name := r.name, description := r.description, cost := r.cost,
    category := r.category, inventory := r.inventory, unit := r.unit,
    min_threshold := r.min_threshold, expiry_date := r.expiry_date,
    location := r.location, safety_info := r.safety_info,
    purchase_history := r.purchase_history, usage_history := r.usage_history }

/-- Models the constructor `Reagent.__init__` (`models.py` lines 34-82): every
validator runs (and can raise ValueError), then the raw, untrimmed arguments
are assigned; `location` is defaulted with Python `or` (so `None` and the empty
string both become the default), histories start empty. -/
def Reagent.init (name description : String) (cost : ℚ) (category : String)
    (inventory : ℚ) (unit : String) (min_threshold : ℚ)
    (expiry_date : Option Int) (location : Option String)
    (safety_info : List (String × String)) : Except PyErr Reagent := do
  let _ ← Validator.validate_string name
  let _ ← Validator.validate_string description
  let _ ← Validator.validate_positive_number cost
  let _ ← Validator.validate_string category
  let _ ← Validator.validate_positive_number inventory
  let _ ← Validator.validate_string unit
  let _ ← Validator.validate_positive_number min_threshold
  return { name := name, description := description, cost := cost,
           category := category, inventory := inventory, unit := unit,
           min_threshold := min_threshold, expiry_date := expiry_date,
           location := match location with
             | none => "Almacén general"
             | some l => if l = "" then "Almacén general" else l,
           safety_info := safety_info,
           purchase_history := [], usage_history := [] }

/-- Models `Reagent.from_dict` (`models.py` lines 158-183): the constructor is
re-run on the serialized fields (so its validators run again), then the two
histories are restored from the dictionary. -/
def Reagent.from_dict (d : ReagentDict) : Except PyErr Reagent := do
  let r ← Reagent.init d.name d.description d.cost d.category d.inventory
    d.unit d.min_threshold d.expiry_date (some d.location) d.safety_info
  return { r with purchase_history := d.purchase_history,
                  usage_history := d.usage_history }

/-- The `Recipe` class of `models.py` (lines 185-308): required reagents with
quantities, expected result ranges (typed 2-tuples in this variant), procedure
steps. -/
structure Recipe where
  name : String
  objective : String
  reagents : List (String × ℚ)
  procedure : List String
  expected_results : List (String × (ℚ × ℚ))
deriving DecidableEq, Repr

/-- One stored entry of `Experiment.measurement_validations` (`models.py`
lines 368-374); the opaque `raw_data` payload is omitted. -/
structure MeasurementValidation where
  value : ℚ
  is_valid : Bool
  deviation : ℚ
  expected_range : ℚ × ℚ
deriving DecidableEq, Repr

/-- The `Experiment` class of `models.py` (lines 310-434): the fields its
constructor assigns. -/
structure Experiment where
  recipe : Recipe
  responsible_people : List String
  date : Int
  results : List (String × ℚ)
  success : Bool
  cost : ℚ
  measurement_validations : List (String × MeasurementValidation)
deriving DecidableEq, Repr

/-- Models `Experiment.record_result` (`models.py` lines 347-377). The value is
stored in `results` first. For a measurement declared in `expected_results` the
deviation divides by the range midpoint `(min+max)/2` with no guard
(`models.py` line 366), which in Python raises ZeroDivisionError when the
midpoint is 0 — after the value was stored but before the validation entry is
written. An undeclared measurement is stored and reported valid. -/
def Experiment.record_result (e : Experiment) (measurement : String)
    (value : ℚ) : Experiment × Except PyErr Bool :=
  let e1 := { e with results := setKey e.results measurement value }
  match getKey? e.recipe.expected_results measurement with
  | none => (e1, .ok true)
  | some (min_val, max_val) =>
    let is_valid := decide (min_val ≤ value ∧ value ≤ max_val)
    let target := (min_val + max_val) / 2
    if target = 0 then (e1, .error .zeroDivisionError)
    else
      let deviation := ((value - target) / target) * 100
      ({ e1 with measurement_validations :=
           (setKey e1.measurement_validations measurement
             { value := value, is_valid := is_valid, deviation := deviation,
               expected_range := (min_val, max_val) }) }, .ok is_valid)

/-- Models `Experiment.validate_results` (`models.py` lines 379-394): false
when `results` or the recipe's `expected_results` is empty; otherwise every
RECORDED measurement that happens to be declared must lie in its range — a
declared measurement absent from `results` is never examined by this loop. -/
def Experiment.validate_results (e : Experiment) : Bool :=
  if e.results.isEmpty || e.recipe.expected_results.isEmpty then false
  else e.results.all fun p =>
    match getKey? e.recipe.expected_results p.1 with
    | some (min_val, max_val) => decide (min_val ≤ p.2 ∧ p.2 ≤ max_val)
    | none => true

/-- Attribute names that `ResultManager.add_result` (`managers.py` lines
332-358) reads off its experiment argument, together with the names the
`Experiment` class actually defines. -/
inductive ExperimentAttr where
  | recipe
  | responsible_people
  | date
  | results
  | success
  | cost
  | measurement_validations
  | get_detailed_results
  | validations
  | deviations
  | is_successful
deriving DecidableEq, Repr

/-- The attribute table of the `Experiment` class in `models.py`: the fields
its `__init__` assigns (lines 339-345). The names `get_detailed_results`,
`validations`, `deviations` and `is_successful` are defined nowhere on the
class (its methods are `record_result`, `validate_results`, `to_dict`,
`from_dict`), so a Python attribute access on them raises AttributeError —
modelled as `none`; values are abstracted to `Unit` because the modelled
caller only branches on presence. -/
def Experiment.lookupAttr (_e : Experiment) : ExperimentAttr → Option Unit
  | .get_detailed_results => none
  | .validations => none
  | .deviations => none
  | .is_successful => none
  | _ => some ()

end Models

namespace Managers

/-- One supplier record of `InventoryManager.register_supplier`
(`managers.py` lines 137-149). -/
structure Supplier where
  name : String
  contact_info : String
  reagents : List String
deriving DecidableEq, Repr

/-- One order record built by `InventoryManager.place_order` (`managers.py`
lines 183-190); note the variant stores no expected-delivery date. -/
structure Order where
  order_id : String
  reagent_name : String
  quantity : ℚ
  supplier_name : String
  order_date : Int
  status : String
deriving DecidableEq, Repr

/-- The `InventoryManager` class of `managers.py` (lines 18-317); the category
and location tracking sets are modelled as lists. -/
structure InventoryManager where
  reagents : List (String × Models.Reagent)
  suppliers : List (String × Supplier)
  order_history : List Order
  categories : List String
  locations : List String
deriving DecidableEq, Repr

/-- Models `InventoryManager.update_stock` (`managers.py` lines 118-135): an
absent reagent yields `false`; otherwise the source calls
`reagent.update_inventory(amount, reason)`, DISCARDS its Boolean result, and
returns `True` unconditionally (lines 134-135). -/
def InventoryManager.update_stock (im : InventoryManager) (today : Int)
    (reagent_name : String) (amount : ℚ) (reason : String) :
    InventoryManager × Bool :=
  match getKey? im.reagents reagent_name with
  | none => (im, false)
  | some reagent =>
    let r' := (Models.Reagent.update_inventory reagent today amount reason).1
    ({ im with reagents := setKey im.reagents reagent_name r' }, true)

/-- Models `InventoryManager.place_order` (`managers.py` lines 170-193): no
existence check on the reagent or the supplier, an id counted from the order
history length, status `pending`, and no expected-delivery date; the order is
appended unconditionally. -/
def InventoryManager.place_order (im : InventoryManager) (today : Int)
    (reagent_name : String) (quantity : ℚ) (supplier_name : String) :
    InventoryManager × Order :=
  let order : Order :=
    { order_id := "ORD-" ++ toString (im.order_history.length + 1),
      reagent_name := reagent_name, quantity := quantity,
      supplier_name := supplier_name, order_date := today,
      status := "pending" }
  ({ im with order_history := im.order_history ++ [order] }, order)

/-- One entry of `ResultManager.results_history` as `add_result` would build it
(`managers.py` lines 345-355), restricted to the attributes that exist on the
`Experiment` class; the `validaciones`/`desviaciones`/`exito` fields would come
from the missing attributes and are unreachable (see `add_result`). -/
structure ResultEntry where
  fecha : Int
  receta : String
  responsables : List String
  mediciones : List (String × ℚ)
  exito : Bool
  notas : String
  costo : ℚ
deriving DecidableEq, Repr

/-- The `ResultManager` class of `managers.py` (lines 320-503). -/
structure ResultManager where
  results_history : List ResultEntry
deriving DecidableEq, Repr

/-- Models `ResultManager.add_result` (`managers.py` lines 332-358). Its first
statement reads `experiment.get_detailed_results()` (line 343); the entry it
then builds reads `experiment.validations`, `experiment.deviations` and
`experiment.is_successful()` (lines 350-352). None of these is an attribute of
the `Experiment` class in `models.py`, so in Python the first access raises
AttributeError before anything is appended; the appending branch below is
unreachable for every experiment this module can construct. -/
def ResultManager.add_result (rm : ResultManager) (e : Models.Experiment)
    (notes : String) : ResultManager × Except PyErr ResultEntry :=
  match Models.Experiment.lookupAttr e .get_detailed_results with
  | none => (rm, .error .attributeError)
  | some _ =>
    match Models.Experiment.lookupAttr e .validations,
          Models.Experiment.lookupAttr e .deviations,
          Models.Experiment.lookupAttr e .is_successful with
    | some _, some _, some _ =>
      let entry : ResultEntry :=
        { fecha := e.date, receta := e.recipe.name,
          responsables := e.responsible_people, mediciones := e.results,
          exito := e.success, notas := notes, costo := 0 }
      ({ rm with results_history := rm.results_history ++ [entry] }, .ok entry)
    | _, _, _ => (rm, .error .attributeError)

end Managers

namespace Labsys

/-- The `LaboratorySystem` class of `laboratory_system.py` (lines 22-238),
restricted to the state the engine mutates; the visualizer, calculator and
indicator collaborators only render and are omitted. -/
structure LaboratorySystem where
  inventory_manager : Managers.InventoryManager
  result_manager : Managers.ResultManager
  recipes : List (String × Models.Recipe)
deriving DecidableEq, Repr

/-- The availability scan of `perform_experiment` (`laboratory_system.py`
lines 109-112): per required reagent, presence and stock are checked in recipe
order; expiry is NOT checked in this variant; the scan mutates nothing. -/
def checkAvail (reagents : List (String × Models.Reagent)) :
    List (String × ℚ) → Bool
  | [] => true
  | (n, amount) :: rest =>
    match getKey? reagents n with
    | none => false
    | some r => if r.inventory < amount then false else checkAvail reagents rest

/-- The measurement replay loop of `perform_experiment`
(`laboratory_system.py` lines 121-122): each measurement goes through
`Experiment.record_result` in order; a ZeroDivisionError raised there
propagates out of the loop. -/
def replayResults : Models.Experiment → List (String × ℚ) →
    Models.Experiment × Except PyErr Unit
  | e, [] => (e, .ok ())
  | e, (m, v) :: rest =>
    match Models.Experiment.record_result e m v with
    | (e', .error err) => (e', .error err)
    | (e', .ok _) => replayResults e' rest

/-- The `Experiment` the orchestrator constructs (`laboratory_system.py` lines
115-118, `models.py` lines 323-345): fresh results, success false, cost 0. -/
def newExperiment (recipe : Models.Recipe) (responsible_people : List String)
    (now : PyDateTime) : Models.Experiment :=
  { recipe := recipe, responsible_people := responsible_people,
    date := now.day, results := [], success := false, cost := 0,
    measurement_validations := [] }

/-- The inventory debit loop of `perform_experiment` (`laboratory_system.py`
lines 125-130): `update_stock` is called per required reagent with the negated
quantity; its Boolean result is ignored. -/
def debitReagents (today : Int) (recipe_name : String) :
    Managers.InventoryManager → List (String × ℚ) → Managers.InventoryManager
  | im, [] => im
  | im, (n, amount) :: rest =>
    debitReagents today recipe_name
      (Managers.InventoryManager.update_stock im today n (-amount)
        ("Usado en experimento: " ++ recipe_name)).1 rest

/-- Models `LaboratorySystem.perform_experiment` (`laboratory_system.py` lines
88-140). Python returns None (modelled `.ok none`) when the recipe is missing
or the availability scan fails; the `Experiment` constructor raises ValueError
on an empty responsible list (`models.py` lines 336-337); the measurement
replay precedes the inventory debit; the plotting call touches no modelled
state; the final `add_result` raises AttributeError after the debit (see
`ResultManager.add_result`), leaving the result history untouched. -/
def LaboratorySystem.perform_experiment (s : LaboratorySystem)
    (now : PyDateTime) (recipe_name : String)
    (responsible_people : List String) (measurements : List (String × ℚ))
    (notes : String) :
    LaboratorySystem × Except PyErr (Option Managers.ResultEntry) :=
  match getKey? s.recipes recipe_name with
  | none => (s, .ok none)
  | some recipe =>
    if checkAvail s.inventory_manager.reagents recipe.reagents then
      if responsible_people.isEmpty then (s, .error .valueError)
      else
        match replayResults (newExperiment recipe responsible_people now)
            measurements with
        | (_, .error err) => (s, .error err)
        | (experiment, .ok _) =>
          let im' := debitReagents now.day recipe_name s.inventory_manager
            recipe.reagents
          match Managers.ResultManager.add_result s.result_manager experiment
              notes with
          | (_, .error err) => ({ s with inventory_manager := im' }, .error err)
          | (rm', .ok entry) =>
            ({ s with inventory_manager := im', result_manager := rm' },
             .ok (some entry))
    else (s, .ok none)

end Labsys

namespace Mono

/-- One transaction record appended by the monolithic
`Reagent.update_inventory` (script lines 108-115). -/
structure Transaction where
  date : Int
  amount : ℚ
  old_level : ℚ
  new_level : ℚ
  reason : String
deriving DecidableEq, Repr

/-- One order record built by the monolithic `LaboratorySystem.place_order`
(script lines 460-468): timestamp-derived id, Spanish status `pendiente` and
an expected-delivery date 7 days after the order date. -/
structure Order where
  order_id : String
  reagent_name : String
  quantity : ℚ
  supplier_name : String
  order_date : Int
  status : String
  expected_delivery : Int
deriving DecidableEq, Repr

/-- The `Reagent` class of the monolithic script (lines 50-164). This variant
stores the expiry date as the validated string, modelled as the parsed day
ordinal; `safety_info` is the free-form string the script passes around. -/
structure Reagent where
  name : String
  description : String
  cost : ℚ
  category : String
  inventory : ℚ
  unit : String
  min_threshold : ℚ
  expiry_date : Option Int
  location : String
  safety_info : String
  purchase_history : List Transaction
  usage_history : List Transaction
  orders : List Order
deriving DecidableEq, Repr

/-- Models the monolithic `Reagent.update_inventory` (script lines 97-120):
the change is applied UNCONDITIONALLY — there is no floor check, so the
inventory can go negative — and one transaction is appended, to
`purchase_history` when the amount is positive, else to `usage_history`. -/
def Reagent.update_inventory (r : Reagent) (today : Int) (amount : ℚ)
    (reason : String) : Reagent :=
  let new_inventory := r.inventory + amount
  let transaction : Transaction :=
    { date := today, amount := amount, old_level := r.inventory,
      new_level := new_inventory, reason := reason }
  if 0 < amount then
    { r with inventory := new_inventory,
             purchase_history := r.purchase_history ++ [transaction] }
  else
    { r with inventory := new_inventory,
             usage_history := r.usage_history ++ [transaction] }

/-- Models the monolithic `Reagent.is_expired` (script lines 75-82):
date-granularity comparison `today >= expiry`, inclusive of the expiry date;
false with no expiry date. -/
def Reagent.is_expired (r : Reagent) (today : Int) : Bool :=
  match r.expiry_date with
  | none => false
  | some e => decide (e ≤ today)

/-- Models the monolithic `Reagent.is_low_stock` (script lines 71-73). -/
def Reagent.is_low_stock (r : Reagent) : Bool :=
  decide (r.inventory ≤ r.min_threshold)

/-- An `expected_results` value of the monolithic `Recipe`: the curated data
stores 2-tuple ranges, but the interactive recipe builder (script lines
1265-1271) stores single numbers, and `record_result` branches on the shape. -/
inductive ExpectedVal where
  | range (min_val max_val : ℚ)
  | scalar (v : ℚ)
deriving DecidableEq, Repr

/-- The `Recipe` class of the monolithic script (lines 167-255). -/
structure Recipe where
  name : String
  objective : String
  reagents : List (String × ℚ)
  expected_results : List (String × ExpectedVal)
  procedure : List String
deriving DecidableEq, Repr

/-- One stored entry of the monolithic `measurement_validations` (script lines
295-298): validity and the expected range when one was declared. -/
structure MeasurementValidation where
  is_valid : Bool
  expected_range : Option (ℚ × ℚ)
deriving DecidableEq, Repr

/-- The `Experiment` class of the monolithic script (lines 258-350). -/
structure Experiment where
  recipe : Recipe
  date : Int
  responsible_people : List String
  results : List (String × ℚ)
  measurement_validations : List (String × MeasurementValidation)
  success : Bool
  cost : ℚ
  notes : String
deriving DecidableEq, Repr

/-- Models the monolithic `Experiment.record_result` (script lines 272-300):
the value is stored; a declared 2-tuple range is checked (a scalar or missing
expectation counts as valid with no range); the validation entry is always
written. -/
def Experiment.record_result (e : Experiment) (measurement : String)
    (value : ℚ) : Experiment × Bool :=
  let e1 := { e with results := setKey e.results measurement value }
  let checked :=
    match getKey? e.recipe.expected_results measurement with
    | some (.range min_val max_val) =>
      (decide (min_val ≤ value ∧ value ≤ max_val), some (min_val, max_val))
    | some (.scalar _) => (true, none)
    | none => (true, none)
  ({ e1 with measurement_validations :=
       (setKey e1.measurement_validations measurement
         { is_valid := checked.1, expected_range := checked.2 }) }, checked.1)

/-- Models the monolithic `Experiment.validate_results` (script lines 302-319):
every measurement declared in the recipe's `expected_results` must be present
in `results` AND its stored validation must say valid; the early-return loop
equals this conjunction over the declared measurements. -/
def Experiment.validate_results (e : Experiment) : Bool :=
  e.recipe.expected_results.all fun p =>
    (getKey? e.results p.1).isSome &&
    (match getKey? e.measurement_validations p.1 with
     | some v => v.is_valid
     | none => false)

/-- One supplier record of the monolithic `add_supplier` (script lines
429-436). -/
structure Supplier where
  name : String
  contact_info : String
  reagents : List String
deriving DecidableEq, Repr

/-- The mutable state of the monolithic `LaboratorySystem` (script lines
353-367). -/
structure LabState where
  reagents : List (String × Reagent)
  recipes : List (String × Recipe)
  experiments : List Experiment
  suppliers : List (String × Supplier)
deriving DecidableEq, Repr

/-- The outcome of the monolithic `perform_experiment`: one constructor per
error message the source returns, or the completed experiment. -/
inductive PerformOutcome where
  | recipeNotFound
  | reagentNotFound (n : String)
  | insufficientStock (n : String)
  | expired (n : String)
  | ok (e : Experiment)
deriving DecidableEq, Repr

/-- True on every outcome of `perform_experiment` other than success. -/
def PerformOutcome.isErr : PerformOutcome → Bool
  | .ok _ => false
  | _ => true

/-- The availability loop of the monolithic `perform_experiment` (script lines
386-396): per required reagent in recipe order — presence, then stock, then
expiry; the first failing condition is returned, `none` when all pass. The
loop mutates nothing. -/
def checkReagents (reagents : List (String × Reagent)) (today : Int) :
    List (String × ℚ) → Option PerformOutcome
  | [] => none
  | (n, amount) :: rest =>
    match getKey? reagents n with
    | none => some (.reagentNotFound n)
    | some r =>
      if r.inventory < amount then some (.insufficientStock n)
      else if r.is_expired today then some (.expired n)
      else checkReagents reagents today rest

/-- The inventory debit loop of the monolithic `perform_experiment` (script
lines 410-413). The `none` branch is unreachable once `checkReagents` passed
(Python would raise KeyError there). -/
def debitReagents (today : Int) (recipe_name : String) :
    List (String × Reagent) → List (String × ℚ) → List (String × Reagent)
  | m, [] => m
  | m, (n, amount) :: rest =>
    match getKey? m n with
    | some r =>
      debitReagents today recipe_name
        (setKey m n (r.update_inventory today (-amount)
          ("Usado en experimento: " ++ recipe_name))) rest
    | none => debitReagents today recipe_name m rest

/-- The cost sum of the monolithic `perform_experiment` (script lines
416-419), over the post-debit reagent map (the unit cost field is unchanged by
debiting). The 0 branch is unreachable once `checkReagents` passed. -/
def recipeCost (reagents : List (String × Reagent)) :
    List (String × ℚ) → ℚ
  | [] => 0
  | (n, amount) :: rest =>
    (match getKey? reagents n with
     | some r => r.cost
     | none => 0) * amount + recipeCost reagents rest

/-- The measurement replay loop of the monolithic `perform_experiment` (script
lines 403-404); the monolithic `record_result` is total. -/
def replayResults : Experiment → List (String × ℚ) → Experiment
  | e, [] => e
  | e, (m, v) :: rest => replayResults (e.record_result m v).1 rest

/-- Models the monolithic `LaboratorySystem.perform_experiment` (script lines
379-427): all precondition checks run before any mutation; afterwards the
measurements are recorded, success is computed via `validate_results`, the
inventory is debited, the cost is summed and the experiment is appended. -/
def perform_experiment (s : LabState) (today : Int) (recipe_name : String)
    (responsible_people : List String) (measurements : List (String × ℚ))
    (notes : String) : LabState × PerformOutcome :=
  match getKey? s.recipes recipe_name with
  | none => (s, .recipeNotFound)
  | some recipe =>
    match checkReagents s.reagents today recipe.reagents with
    | some err => (s, err)
    | none =>
      let e0 : Experiment :=
        { recipe := recipe, date := today,
          responsible_people := responsible_people, results := [],
          measurement_validations := [], success := false, cost := 0,
          notes := notes }
      let e1 := replayResults e0 measurements
      let e2 := { e1 with success := e1.validate_results }
      let reagents' := debitReagents today recipe_name s.reagents
        recipe.reagents
      let e3 := { e2 with cost := recipeCost reagents' recipe.reagents }
      ({ s with reagents := reagents',
                experiments := s.experiments ++ [e3] }, .ok e3)

/-- The outcome of the monolithic `place_order`: one constructor per error
message, or the created order. -/
inductive OrderOutcome where
  | reagentNotFound
  | supplierNotFound
  | ok (o : Order)
deriving DecidableEq, Repr

/-- Models the monolithic `LaboratorySystem.place_order` (script lines
452-476): unknown reagent, then unknown supplier, fail with their error
messages and mutate nothing; otherwise one order is appended to the reagent's
own order list. `ts` is the `%Y%m%d%H%M%S` timestamp rendered into the order
id (second resolution: two orders in the same second share an id). -/
def place_order (s : LabState) (ts : Nat) (today : Int)
    (reagent_name : String) (quantity : ℚ) (supplier_name : String) :
    LabState × OrderOutcome :=
  match getKey? s.reagents reagent_name with
  | none => (s, .reagentNotFound)
  | some r =>
    match getKey? s.suppliers supplier_name with
    | none => (s, .supplierNotFound)
    | some _ =>
      let order : Order :=
        { order_id := "ORD-" ++ toString ts, reagent_name := reagent_name,
          quantity := quantity, supplier_name := supplier_name,
          order_date := today, status := "pendiente",
          expected_delivery := today + 7 }
      ({ s with reagents := (setKey s.reagents reagent_name
           { r with orders := r.orders ++ [order] }) }, .ok order)

end Mono

namespace ResultCalculator

/-- Models `ResultCalculator.evaluate_measurement` (`calculators.py` lines
40-55): the same unguarded midpoint division as
`Models.Experiment.record_result`, raising ZeroDivisionError when the range
midpoint is 0. -/
def evaluate_measurement (value min_val max_val : ℚ) :
    Except PyErr (Bool × ℚ) :=
  let is_valid := decide (min_val ≤ value ∧ value ≤ max_val)
  let target := (min_val + max_val) / 2
  if target = 0 then .error .zeroDivisionError
  else .ok (is_valid, ((value - target) / target) * 100)

end ResultCalculator

/-!
Concrete sample data for the claim theorems below. Quantities are small
integers; day ordinals are abstract (19723 is used where a comment says
2024-01-01). Each claim uses its own samples.
-/

/-- Sample split-variant reagent for C1: five units in stock, expired long
before the sample call date `nowC1`. -/
def rgC1 : Models.Reagent :=
  { name := "X", description := "d", cost := 1, category := "c",
    inventory := 5, unit := "g", min_threshold := 1, expiry_date := some 100,
    location := "L", safety_info := [], purchase_history := [],
    usage_history := [] }

/-- Sample split-variant recipe for C1: requires two units of `X`. -/
def rcC1 : Models.Recipe :=
  { name := "R", objective := "o", reagents := [("X", 2)],
    procedure := ["p1"], expected_results := [("pH", (6, 7))] }

/-- Sample split-variant system for C1. -/
def sC1 : Labsys.LaboratorySystem :=
  { inventory_manager :=
      { reagents := [("X", rgC1)], suppliers := [], order_history := [],
        categories := ["c"], locations := ["L"] },
    result_manager := { results_history := [] },
    recipes := [("R", rcC1)] }

/-- Sample call instant for C1, well past the expiry date of `rgC1`. -/
def nowC1 : PyDateTime := { day := 200, usec := 0 }

/-- Sample monolithic reagent for the C1 witness: five units in stock, not
expired. -/
def rgC1w : Mono.Reagent :=
  { name := "X", description := "d", cost := 1, category := "c",
    inventory := 5, unit := "g", min_threshold := 1, expiry_date := none,
    location := "L", safety_info := "", purchase_history := [],
    usage_history := [], orders := [] }

/-- Sample monolithic recipe for the C1 witness: requires ten units of `X`,
more than stocked. -/
def rcC1w : Mono.Recipe :=
  { name := "R", objective := "o", reagents := [("X", 10)],
    expected_results := [("pH", .range 6 7)], procedure := ["p1"] }

/-- Sample monolithic state for the C1 witness. -/
def sC1w : Mono.LabState :=
  { reagents := [("X", rgC1w)], recipes := [("R", rcC1w)],
    experiments := [], suppliers := [] }

/-- Sample monolithic reagent for the C2 counterexample: one unit in stock. -/
def rC2 : Mono.Reagent :=
  { name := "Acid", description := "d", cost := 1, category := "c",
    inventory := 1, unit := "g", min_threshold := 1, expiry_date := none,
    location := "L", safety_info := "", purchase_history := [],
    usage_history := [], orders := [] }

/-- Sample split-variant reagent for the C2 witness: the spec's concrete
scenario, 100 units in stock. -/
def rC2w : Models.Reagent :=
  { name := "Acid", description := "d", cost := 1, category := "c",
    inventory := 100, unit := "g", min_threshold := 20, expiry_date := none,
    location := "L", safety_info := [], purchase_history := [],
    usage_history := [] }

/-- Sample split-variant recipe for the C3 counterexample: declares `pH`. -/
def rcC3 : Models.Recipe :=
  { name := "R", objective := "o", reagents := [("X", 1)],
    procedure := ["p"], expected_results := [("pH", (6, 7))] }

/-- Sample split-variant experiment for the C3 counterexample: the recipe
declares `pH`, the results hold only an undeclared `temp` reading. -/
def eC3 : Models.Experiment :=
  { recipe := rcC3, responsible_people := ["Ana"], date := 0,
    results := [("temp", 25)], success := false, cost := 0,
    measurement_validations := [] }

/-- Sample monolithic recipe for the C3 witness: declares `pH`. -/
def rcC3w : Mono.Recipe :=
  { name := "R", objective := "o", reagents := [("X", 1)],
    expected_results := [("pH", .range 6 7)], procedure := ["p"] }

/-- Sample monolithic experiment for the C3 witness: `pH` declared, recorded
in range, validation stored valid. -/
def eC3w : Mono.Experiment :=
  { recipe := rcC3w, date := 0, responsible_people := ["Ana"],
    results := [("pH", 7)],
    measurement_validations :=
      [("pH", { is_valid := true, expected_range := some (6, 7) })],
    success := false, cost := 0, notes := "" }

/-- Sample split-variant reagent for C4: ten units in stock, expired before
the sample call date `nowC4`. -/
def rgC4 : Models.Reagent :=
  { name := "Y", description := "d", cost := 2, category := "c",
    inventory := 10, unit := "mL", min_threshold := 1,
    expiry_date := some 50, location := "L", safety_info := [],
    purchase_history := [], usage_history := [] }

/-- Sample split-variant recipe for C4: requires four units of `Y`. -/
def rcC4 : Models.Recipe :=
  { name := "R2", objective := "o", reagents := [("Y", 4)],
    procedure := ["p1"], expected_results := [("t", (1, 3))] }

/-- Sample split-variant system for C4. -/
def sC4 : Labsys.LaboratorySystem :=
  { inventory_manager :=
      { reagents := [("Y", rgC4)], suppliers := [], order_history := [],
        categories := ["c"], locations := ["L"] },
    result_manager := { results_history := [] },
    recipes := [("R2", rcC4)] }

/-- Sample call instant for C4, past the expiry date of `rgC4`. -/
def nowC4 : PyDateTime := { day := 60, usec := 0 }

/-- Sample split-variant reagent for C5: 100 units in stock, all debitable. -/
def rC5 : Models.Reagent :=
  { name := "Acid", description := "Strong acid", cost := 2,
    category := "Acids", inventory := 100, unit := "g", min_threshold := 20,
    expiry_date := none, location := "Store", safety_info := [],
    purchase_history := [], usage_history := [] }

/-- Sample split-variant reagent for C6: 100 units in stock. -/
def rC6 : Models.Reagent :=
  { name := "Acid", description := "d", cost := 1, category := "c",
    inventory := 100, unit := "g", min_threshold := 20, expiry_date := none,
    location := "L", safety_info := [], purchase_history := [],
    usage_history := [] }

/-- Sample split-variant inventory manager for C6. -/
def imC6 : Managers.InventoryManager :=
  { reagents := [("Acid", rC6)], suppliers := [], order_history := [],
    categories := ["c"], locations := ["L"] }

/-- Sample split-variant reagent for the C7 witness: nine units in stock, no
expiry. -/
def rgC7 : Models.Reagent :=
  { name := "Z", description := "d", cost := 3, category := "c",
    inventory := 9, unit := "g", min_threshold := 1, expiry_date := none,
    location := "L", safety_info := [], purchase_history := [],
    usage_history := [] }

/-- Sample split-variant recipe for the C7 witness: requires four units of
`Z`. -/
def rcC7 : Models.Recipe :=
  { name := "R3", objective := "o", reagents := [("Z", 4)],
    procedure := ["p1"], expected_results := [("pH", (6, 8))] }

/-- Sample split-variant system for the C7 witness. -/
def sC7 : Labsys.LaboratorySystem :=
  { inventory_manager :=
      { reagents := [("Z", rgC7)], suppliers := [], order_history := [],
        categories := ["c"], locations := ["L"] },
    result_manager := { results_history := [] },
    recipes := [("R3", rcC7)] }

/-- Sample call instant for the C7 witness. -/
def nowC7 : PyDateTime := { day := 10, usec := 0 }

/-- Sample split-variant reagent for C8: expiry day 19723 (2024-01-01). -/
def rC8 : Models.Reagent :=
  { name := "W", description := "d", cost := 1, category := "c",
    inventory := 5, unit := "g", min_threshold := 1,
    expiry_date := some 19723, location := "L", safety_info := [],
    purchase_history := [], usage_history := [] }

/-- Sample call instant for C8: exactly midnight of day 19723
(2024-01-01 00:00:00). -/
def nowC8 : PyDateTime := { day := 19723, usec := 0 }

/-- Sample monolithic reagent for the C8 witness: same expiry day 19723. -/
def rC8w : Mono.Reagent :=
  { name := "W", description := "d", cost := 1, category := "c",
    inventory := 5, unit := "g", min_threshold := 1,
    expiry_date := some 19723, location := "L", safety_info := "",
    purchase_history := [], usage_history := [], orders := [] }

/-- Sample split-variant inventory manager for the C9 counterexample: empty —
it knows neither the reagent nor the supplier ordered below. -/
def imC9 : Managers.InventoryManager :=
  { reagents := [], suppliers := [], order_history := [], categories := [],
    locations := [] }

/-- Sample monolithic reagent for the C9 witness. -/
def rgC9 : Mono.Reagent :=
  { name := "X", description := "d", cost := 1, category := "c",
    inventory := 5, unit := "g", min_threshold := 1, expiry_date := none,
    location := "L", safety_info := "", purchase_history := [],
    usage_history := [], orders := [] }

/-- Sample monolithic supplier for the C9 witness. -/
def spC9 : Mono.Supplier :=
  { name := "S", contact_info := "c", reagents := [] }

/-- Sample monolithic state for the C9 witness: one reagent `X`, one supplier
`S`. -/
def sC9 : Mono.LabState :=
  { reagents := [("X", rgC9)], recipes := [], experiments := [],
    suppliers := [("S", spC9)] }

/-- Sample split-variant recipe for the C10 counterexample: the declared
range `[-7, 7]` has midpoint 0. -/
def rcC10 : Models.Recipe :=
  { name := "R", objective := "o", reagents := [("X", 1)],
    procedure := ["p"], expected_results := [("pH", (-7, 7))] }

/-- Sample split-variant experiment for the C10 counterexample. -/
def eC10 : Models.Experiment :=
  { recipe := rcC10, responsible_people := ["Ana"], date := 0, results := [],
    success := false, cost := 0, measurement_validations := [] }

/-- Sample split-variant recipe for the C10 witness: the declared range
`[6, 8]` has midpoint 7. -/
def rcC10w : Models.Recipe :=
  { name := "R", objective := "o", reagents := [("X", 1)],
    procedure := ["p"], expected_results := [("pH", (6, 8))] }

/-- Sample split-variant experiment for the C10 witness. -/
def eC10w : Models.Experiment :=
  { recipe := rcC10w, responsible_people := ["Ana"], date := 0, results := [],
    success := false, cost := 0, measurement_validations := [] }

/-- Key lemma for the dict model: looking up the key just assigned yields the
assigned value. -/
theorem getKey?_setKey_self {α : Type} (l : List (String × α)) (k : String)
    (v : α) : getKey? (setKey l k v) k = some v := by
  induction l with
  | nil => simp [getKey?, setKey]
  | cons hd tl ih =>
    obtain ⟨k0, v0⟩ := hd
    by_cases h : k0 = k
    · simp [getKey?, setKey, h]
    · simp [getKey?, setKey, h, ih]

/-- Key lemma for the dict model: assigning one key leaves every other key's
lookup unchanged. -/
theorem getKey?_setKey_ne {α : Type} (l : List (String × α)) (k k' : String)
    (v : α) (h : k' ≠ k) : getKey? (setKey l k v) k' = getKey? l k' := by
  induction l with
  | nil => simp [getKey?, setKey, Ne.symm h]
  | cons hd tl ih =>
    obtain ⟨k0, v0⟩ := hd
    by_cases h0 : k0 = k
    · subst h0
      simp [getKey?, setKey, Ne.symm h]
    · simp [getKey?, setKey, h0, ih]

/-- Helper: when the floor check passes, the split-variant `update_inventory`
sets the inventory to `old + amount` and reports success. -/
theorem Models.Reagent.update_inventory_applies (r : Models.Reagent)
    (d : Int) (a : ℚ) (rs : String) (h : 0 ≤ r.inventory + a) :
    (Models.Reagent.update_inventory r d a rs).1.inventory = r.inventory + a ∧
    (Models.Reagent.update_inventory r d a rs).2 = true := by
  have h' : ¬ (r.inventory + a < 0) := not_lt.mpr h
  unfold Models.Reagent.update_inventory
  simp only [h', if_false]
  split <;> simp

/-- Helper: the split-variant availability scan fails whenever some required
reagent is missing or understocked. -/
theorem Labsys.checkAvail_false (reagents : List (String × Models.Reagent))
    (req : List (String × ℚ))
    (h : ∃ p ∈ req, getKey? reagents p.1 = none ∨
      ∃ r, getKey? reagents p.1 = some r ∧ r.inventory < p.2) :
    Labsys.checkAvail reagents req = false := by
  induction req with
  | nil => obtain ⟨p, hp, _⟩ := h; cases hp
  | cons hd tl ih =>
    obtain ⟨n, a⟩ := hd
    obtain ⟨p, hp, hfail⟩ := h
    rcases List.mem_cons.mp hp with rfl | htl
    · rcases hfail with hnone | ⟨r, hr, hlt⟩
      · simp only [Labsys.checkAvail]
        rw [hnone]
      · simp only [Labsys.checkAvail]
        rw [hr]
        simp [hlt]
    · simp only [Labsys.checkAvail]
      cases hget : getKey? reagents n with
      | none => rfl
      | some r =>
        by_cases hlt : r.inventory < a
        · simp [hlt]
        · simp [hlt]
          exact ih ⟨p, htl, hfail⟩

/-- Helper: the monolithic availability loop returns some failing (non-ok)
outcome whenever a required reagent is missing, understocked or expired. -/
theorem Mono.checkReagents_fails (reagents : List (String × Mono.Reagent))
    (today : Int) (req : List (String × ℚ))
    (h : ∃ p ∈ req, getKey? reagents p.1 = none ∨
      ∃ r, getKey? reagents p.1 = some r ∧
        (r.inventory < p.2 ∨ r.is_expired today = true)) :
    ∃ err, Mono.checkReagents reagents today req = some err ∧
      err.isErr = true := by
  induction req with
  | nil => obtain ⟨p, hp, _⟩ := h; cases hp
  | cons hd tl ih =>
    obtain ⟨n, a⟩ := hd
    obtain ⟨p, hp, hfail⟩ := h
    rcases List.mem_cons.mp hp with rfl | htl
    · rcases hfail with hnone | ⟨r, hr, hbad⟩
      · refine ⟨.reagentNotFound n, ?_, rfl⟩
        simp only [Mono.checkReagents]
        rw [hnone]
      · by_cases hlt : r.inventory < a
        · refine ⟨.insufficientStock n, ?_, rfl⟩
          simp only [Mono.checkReagents]
          rw [hr]
          simp [hlt]
        · have hex : r.is_expired today = true := by
            rcases hbad with hbad | hbad
            · exact absurd hbad hlt
            · exact hbad
          refine ⟨.expired n, ?_, rfl⟩
          simp only [Mono.checkReagents]
          rw [hr]
          simp [hlt, hex]
    · simp only [Mono.checkReagents]
      cases hget : getKey? reagents n with
      | none => exact ⟨.reagentNotFound n, rfl, rfl⟩
      | some r =>
        by_cases hlt : r.inventory < a
        · refine ⟨.insufficientStock n, ?_, rfl⟩
          simp [hlt]
        · by_cases hex : r.is_expired today = true
          · refine ⟨.expired n, ?_, rfl⟩
            simp [hlt, hex]
          · obtain ⟨err, herr, hisErr⟩ := ih ⟨p, htl, hfail⟩
            refine ⟨err, ?_, hisErr⟩
            simp [hlt, hex, herr]

/-- Helper: the split-variant debit loop does not touch a reagent that is not
among the required ones. -/
theorem Labsys.debitReagents_getKey_notmem (today : Int) (rn : String)
    (im : Managers.InventoryManager) (req : List (String × ℚ)) (n0 : String)
    (h : n0 ∉ req.map Prod.fst) :
    getKey? (Labsys.debitReagents today rn im req).reagents n0 =
      getKey? im.reagents n0 := by
  induction req generalizing im with
  | nil => rfl
  | cons hd tl ih =>
    obtain ⟨n, a⟩ := hd
    rw [List.map_cons, List.mem_cons] at h
    push_neg at h
    obtain ⟨hne, htl⟩ := h
    simp only [Labsys.debitReagents]
    rw [ih _ htl]
    unfold Managers.InventoryManager.update_stock
    cases hget : getKey? im.reagents n with
    | none => rfl
    | some r =>
      simp only []
      exact getKey?_setKey_ne _ _ _ _ hne

/-- Helper: after the split-variant debit loop, a required reagent's entry is
its `update_inventory` image for the negated required quantity. -/
theorem Labsys.debitReagents_getKey_mem (today : Int) (rn : String)
    (im : Managers.InventoryManager) (req : List (String × ℚ)) (n0 : String)
    (a0 : ℚ) (r0 : Models.Reagent)
    (hnd : (req.map Prod.fst).Nodup) (hmem : (n0, a0) ∈ req)
    (hget : getKey? im.reagents n0 = some r0) :
    getKey? (Labsys.debitReagents today rn im req).reagents n0 =
      some (Models.Reagent.update_inventory r0 today (-a0)
        ("Usado en experimento: " ++ rn)).1 := by
  induction req generalizing im with
  | nil => cases hmem
  | cons hd tl ih =>
    obtain ⟨n, a⟩ := hd
    rw [List.map_cons, List.nodup_cons] at hnd
    rcases List.mem_cons.mp hmem with heq | htl
    · obtain ⟨e1, e2⟩ := Prod.mk.injEq .. |>.mp heq
      subst e1
      subst e2
      simp only [Labsys.debitReagents]
      rw [Labsys.debitReagents_getKey_notmem _ _ _ _ _ hnd.1]
      unfold Managers.InventoryManager.update_stock
      rw [hget]
      simp only []
      exact getKey?_setKey_self _ _ _
    · have hn0tl : n0 ∈ tl.map Prod.fst :=
        List.mem_map.mpr ⟨(n0, a0), htl, rfl⟩
      have hne : n0 ≠ n := fun e => hnd.1 (e ▸ hn0tl)
      simp only [Labsys.debitReagents]
      have hget' : getKey? (Managers.InventoryManager.update_stock im today n
          (-a) ("Usado en experimento: " ++ rn)).1.reagents n0 =
          some r0 := by
        unfold Managers.InventoryManager.update_stock
        cases hg : getKey? im.reagents n with
        | none => exact hget
        | some r =>
          simp only []
          rw [getKey?_setKey_ne _ _ _ _ hne]
          exact hget
      exact ih _ hnd.2 htl hget'

/-- C1 (amended): in the monolithic variant `perform_experiment` is atomic as
claimed — whenever the precondition check fails (recipe missing, or some
required reagent missing, understocked or expired) the state is returned
unchanged with an error outcome. The split variant guarantees this only for
its weaker check (recipe missing, reagent missing, understocked), returning
None with the state unchanged; an expired reagent is not part of its check
(see the counterexample). -/
theorem C1_perform_experiment_atomic_amended :
    (∀ (s : Mono.LabState) (today : Int) (rn : String) (rp : List String)
       (ms : List (String × ℚ)) (notes : String),
       (getKey? s.recipes rn = none ∨
        ∃ recipe, getKey? s.recipes rn = some recipe ∧
          ∃ p ∈ recipe.reagents,
            getKey? s.reagents p.1 = none ∨
            ∃ r, getKey? s.reagents p.1 = some r ∧
              (r.inventory < p.2 ∨ r.is_expired today = true)) →
       (Mono.perform_experiment s today rn rp ms notes).1 = s ∧
       (Mono.perform_experiment s today rn rp ms notes).2.isErr = true) ∧
    (∀ (s : Labsys.LaboratorySystem) (now : PyDateTime) (rn : String)
       (rp : List String) (ms : List (String × ℚ)) (notes : String),
       (getKey? s.recipes rn = none ∨
        ∃ recipe, getKey? s.recipes rn = some recipe ∧
          ∃ p ∈ recipe.reagents,
            getKey? s.inventory_manager.reagents p.1 = none ∨
            ∃ r, getKey? s.inventory_manager.reagents p.1 = some r ∧
              r.inventory < p.2) →
       Labsys.LaboratorySystem.perform_experiment s now rn rp ms notes =
         (s, .ok none)) := by
  constructor
  · intro s today rn rp ms notes h
    rcases h with hnone | ⟨recipe, hrec, hfail⟩
    · unfold Mono.perform_experiment
      rw [hnone]
      exact ⟨rfl, rfl⟩
    · obtain ⟨err, herr, hisErr⟩ :=
        Mono.checkReagents_fails s.reagents today recipe.reagents hfail
      have hperf : Mono.perform_experiment s today rn rp ms notes = (s, err) := by
        unfold Mono.perform_experiment
        simp only [hrec, herr]
      rw [hperf]
      exact ⟨rfl, hisErr⟩
  · intro s now rn rp ms notes h
    rcases h with hnone | ⟨recipe, hrec, hfail⟩
    · unfold Labsys.LaboratorySystem.perform_experiment
      rw [hnone]
    · have hfalse :=
        Labsys.checkAvail_false s.inventory_manager.reagents recipe.reagents
          hfail
      unfold Labsys.LaboratorySystem.perform_experiment
      simp only [hrec, hfalse]
      rfl

/-- C1 counterexample: in the split variant, a call whose only failing
precondition is an expired required reagent does NOT leave the inventory
unchanged — reagent `X` is expired at the call instant, its stock is 5, and
after the call its stock is 3. -/
theorem C1_counterexample_split_expired :
    Models.Reagent.is_expired rgC1 nowC1 = true ∧
    rgC1.inventory = 5 ∧
    (getKey? (Labsys.LaboratorySystem.perform_experiment sC1 nowC1 "R" ["Ana"]
      [] "").1.inventory_manager.reagents "X").map Models.Reagent.inventory =
      some 3 := by
  refine ⟨rfl, rfl, ?_⟩
  norm_num [Labsys.LaboratorySystem.perform_experiment, sC1, rcC1, rgC1, nowC1,
    Labsys.checkAvail, Labsys.replayResults, Labsys.newExperiment,
    Labsys.debitReagents, Managers.InventoryManager.update_stock,
    Models.Reagent.update_inventory, Managers.ResultManager.add_result,
    Models.Experiment.lookupAttr, getKey?, setKey]

/-- C1 witness: the amended theorem applied to a concrete monolithic state
with an understocked reagent. -/
theorem C1_witness :
    (Mono.perform_experiment sC1w 0 "R" ["Ana"] [] "").1 = sC1w ∧
    (Mono.perform_experiment sC1w 0 "R" ["Ana"] [] "").2.isErr = true := by
  refine C1_perform_experiment_atomic_amended.1 sC1w 0 "R" ["Ana"] [] "" ?_
  refine Or.inr ⟨rcC1w, rfl, ("X", 10), ?_, ?_⟩
  · simp [rcC1w]
  · refine Or.inr ⟨rgC1w, rfl, Or.inl ?_⟩
    norm_num [rgC1w]

/-- Helper: the split-variant `update_inventory` preserves a nonnegative
inventory. -/
theorem Models.Reagent.update_inventory_nonneg (r : Models.Reagent) (d : Int)
    (a : ℚ) (rs : String) (h : 0 ≤ r.inventory) :
    0 ≤ (Models.Reagent.update_inventory r d a rs).1.inventory := by
  unfold Models.Reagent.update_inventory
  by_cases hc : r.inventory + a < 0
  · simp only [if_pos hc]
    exact h
  · simp only [if_neg hc]
    push_neg at hc
    split <;> simpa using hc

/-- C2 (amended): the claimed contract holds for the split-variant
(`models.py`) `Reagent.update_inventory` — rejection with no change when
`inventory + amount < 0`, otherwise the update applies with exactly one
transaction appended to the history selected by the sign of the amount (an
amount of 0 goes to `usage_history`), and inventory stays nonnegative under
any sequence of calls. The monolithic variant violates the claim (see the
counterexample): it has no floor check. -/
theorem C2_update_inventory_contract :
    (∀ (r : Models.Reagent) (d : Int) (a : ℚ) (rs : String),
       r.inventory + a < 0 →
         Models.Reagent.update_inventory r d a rs = (r, false)) ∧
    (∀ (r : Models.Reagent) (d : Int) (a : ℚ) (rs : String),
       0 ≤ r.inventory + a →
         (Models.Reagent.update_inventory r d a rs).2 = true ∧
         (Models.Reagent.update_inventory r d a rs).1.inventory =
           r.inventory + a ∧
         (0 < a →
           (Models.Reagent.update_inventory r d a rs).1.purchase_history =
             r.purchase_history ++
               [(⟨d, a, rs, r.inventory + a⟩ : Models.Transaction)] ∧
           (Models.Reagent.update_inventory r d a rs).1.usage_history =
             r.usage_history) ∧
         (a ≤ 0 →
           (Models.Reagent.update_inventory r d a rs).1.usage_history =
             r.usage_history ++
               [(⟨d, a, rs, r.inventory + a⟩ : Models.Transaction)] ∧
           (Models.Reagent.update_inventory r d a rs).1.purchase_history =
             r.purchase_history)) ∧
    (∀ (r : Models.Reagent), 0 ≤ r.inventory →
       ∀ ops : List (Int × ℚ × String),
         0 ≤ (ops.foldl (fun acc p =>
           (Models.Reagent.update_inventory acc p.1 p.2.1 p.2.2).1)
             r).inventory) := by
  refine ⟨?_, ?_, ?_⟩
  · intro r d a rs h
    unfold Models.Reagent.update_inventory
    simp only [if_pos h]
  · intro r d a rs h
    have h' : ¬ (r.inventory + a < 0) := not_lt.mpr h
    unfold Models.Reagent.update_inventory
    simp only [if_neg h']
    by_cases hpos : 0 < a
    · simp only [if_pos hpos]
      exact ⟨trivial, trivial, fun _ => ⟨trivial, trivial⟩,
        fun hle => absurd hpos (not_lt.mpr hle)⟩
    · simp only [if_neg hpos]
      exact ⟨trivial, trivial, fun hlt => absurd hlt hpos,
        fun _ => ⟨trivial, trivial⟩⟩
  · intro r hr ops
    induction ops generalizing r with
    | nil => exact hr
    | cons hd tl ih =>
      exact ih _ (Models.Reagent.update_inventory_nonneg r hd.1 hd.2.1 hd.2.2 hr)

/-- C2 counterexample: the monolithic `Reagent.update_inventory` applies an
over-debit instead of failing — from stock 1, updating by -2 yields stock -1
and still appends a usage transaction. -/
theorem C2_counterexample_mono_negative_inventory :
    (Mono.Reagent.update_inventory rC2 0 (-2) "use").inventory = -1 ∧
    (Mono.Reagent.update_inventory rC2 0 (-2) "use").usage_history.length = 1 := by
  constructor
  · norm_num [Mono.Reagent.update_inventory, rC2]
  · norm_num [Mono.Reagent.update_inventory, rC2]

/-- C2 witness: the amended theorem applied to the spec's concrete scenario —
stock 100, a -150 update is rejected unchanged, a -30 update yields 70. -/
theorem C2_witness :
    Models.Reagent.update_inventory rC2w 0 (-150) "used" = (rC2w, false) ∧
    (Models.Reagent.update_inventory rC2w 0 (-30) "used").1.inventory = 70 := by
  constructor
  · exact C2_update_inventory_contract.1 rC2w 0 (-150) "used" (by norm_num [rC2w])
  · have h : (Models.Reagent.update_inventory rC2w 0 (-30) "used").1.inventory
        = rC2w.inventory + (-30) :=
      (C2_update_inventory_contract.2.1 rC2w 0 (-30) "used"
        (by norm_num [rC2w])).2.1
    rw [h]
    norm_num [rC2w]

/-- C3 (amended): the claimed characterization holds for the monolithic
`Experiment.validate_results` — true iff every measurement declared in the
recipe's `expected_results` is present in `results` and its stored validation
is valid. The split variant is fail-open on missing declared measurements
(see the counterexample). -/
theorem C3_validate_results_mono_iff :
    ∀ (e : Mono.Experiment),
      Mono.Experiment.validate_results e = true ↔
        ∀ p ∈ e.recipe.expected_results,
          (getKey? e.results p.1).isSome = true ∧
          (getKey? e.measurement_validations p.1).elim false
            Mono.MeasurementValidation.is_valid = true := by
  intro e
  unfold Mono.Experiment.validate_results
  rw [List.all_eq_true]
  constructor
  · intro h p hp
    have hpp := h p hp
    rw [Bool.and_eq_true] at hpp
    refine ⟨hpp.1, ?_⟩
    rcases hx : getKey? e.measurement_validations p.1 with _ | v
    · rw [hx] at hpp
      exact absurd hpp.2 (by simp)
    · rw [hx] at hpp
      simpa using hpp.2
  · intro h p hp
    obtain ⟨h1, h2⟩ := h p hp
    rw [Bool.and_eq_true]
    refine ⟨h1, ?_⟩
    rcases hx : getKey? e.measurement_validations p.1 with _ | v
    · rw [hx] at h2
      simp at h2
    · rw [hx] at h2
      simpa using h2

/-- C3 counterexample: the split-variant `validate_results` returns true for
an experiment whose recipe declares `pH` while the results record only an
undeclared `temp` reading — the claim requires false here. -/
theorem C3_counterexample_split_fail_open :
    Models.Experiment.validate_results eC3 = true ∧
    getKey? eC3.results "pH" = none ∧
    getKey? eC3.recipe.expected_results "pH" = some (6, 7) :=
  ⟨rfl, rfl, rfl⟩

/-- C3 witness: the amended characterization applied to a concrete monolithic
experiment with its declared measurement present and valid. -/
theorem C3_witness : Mono.Experiment.validate_results eC3w = true :=
  (C3_validate_results_mono_iff eC3w).mpr (by decide)

/-- C4 (code bug, failing input): in the split variant a required reagent
that is expired — but present and stocked — is consumed: `Y` is expired at
the call instant, yet `perform_experiment` debits its stock from 10 to 6 and
then raises AttributeError, instead of failing with Expired before any
mutation as the claim (and the monolithic variant, see C1) requires. -/
theorem C4_split_consumes_expired_reagent :
    Models.Reagent.is_expired rgC4 nowC4 = true ∧
    (Labsys.LaboratorySystem.perform_experiment sC4 nowC4 "R2" ["Bea"] [] "").2
      = .error .attributeError ∧
    (getKey? (Labsys.LaboratorySystem.perform_experiment sC4 nowC4 "R2" ["Bea"]
      [] "").1.inventory_manager.reagents "Y").map Models.Reagent.inventory =
      some 6 := by
  refine ⟨rfl, rfl, ?_⟩
  norm_num [Labsys.LaboratorySystem.perform_experiment, sC4, rcC4, rgC4, nowC4,
    Labsys.checkAvail, Labsys.replayResults, Labsys.newExperiment,
    Labsys.debitReagents, Managers.InventoryManager.update_stock,
    Models.Reagent.update_inventory, Managers.ResultManager.add_result,
    Models.Experiment.lookupAttr, getKey?, setKey]

/-- C5 (code bug, failing input): a reagent debited to exactly 0 — a state
`update_inventory` itself allows — serializes with inventory 0, and
`from_dict` then raises ValueError because the constructor re-validates
inventory as strictly positive: the claimed round-trip fails at inventory
0. -/
theorem C5_roundtrip_rejects_zero_inventory :
    (Models.Reagent.update_inventory rC5 0 (-100) "used").2 = true ∧
    (Models.Reagent.update_inventory rC5 0 (-100) "used").1.inventory = 0 ∧
    Models.Reagent.from_dict (Models.Reagent.to_dict
      (Models.Reagent.update_inventory rC5 0 (-100) "used").1) =
      .error .valueError := by
  refine ⟨?_, ?_, ?_⟩
  · norm_num [Models.Reagent.update_inventory, rC5]
  · norm_num [Models.Reagent.update_inventory, rC5]
  · norm_num [Models.Reagent.from_dict, Models.Reagent.to_dict,
      Models.Reagent.update_inventory, Models.Reagent.init, rC5,
      Validator.validate_string, Validator.validate_positive_number]
    rfl

/-- C6 (code bug, failing input): `update_stock` discards the delegate's
result — a -150 update on a stock of 100 is rejected by `update_inventory`
(inventory stays 100, no history entry), yet `update_stock` returns true;
only the missing-reagent case returns false. -/
theorem C6_update_stock_swallows_failure :
    (Managers.InventoryManager.update_stock imC6 0 "Acid" (-150) "use").2 =
      true ∧
    (getKey? (Managers.InventoryManager.update_stock imC6 0 "Acid" (-150)
      "use").1.reagents "Acid").map Models.Reagent.inventory = some 100 ∧
    (getKey? (Managers.InventoryManager.update_stock imC6 0 "Acid" (-150)
      "use").1.reagents "Acid").map Models.Reagent.usage_history = some [] ∧
    (Managers.InventoryManager.update_stock imC6 0 "Missing" 5 "x").2 =
      false := by
  refine ⟨rfl, ?_, ?_, rfl⟩
  · norm_num [Managers.InventoryManager.update_stock,
      Models.Reagent.update_inventory, imC6, rC6, getKey?, setKey]
  · norm_num [Managers.InventoryManager.update_stock,
      Models.Reagent.update_inventory, imC6, rC6, getKey?, setKey]

/-- C7: `ResultManager.add_result` raises AttributeError for every
split-variant `Experiment` (its first read, `get_detailed_results`, is not an
attribute of the class) and never appends to `results_history`; and whenever
the split `perform_experiment` reaches it (recipe found, availability scan
passed, nonempty responsible list, measurement replay without error), the
call ends in that AttributeError with the result history unchanged and the
inventory already debited by the required quantity. -/
theorem C7_add_result_attribute_error :
    (∀ (rm : Managers.ResultManager) (e : Models.Experiment) (notes : String),
       Managers.ResultManager.add_result rm e notes =
         (rm, .error .attributeError)) ∧
    (∀ (s : Labsys.LaboratorySystem) (now : PyDateTime) (rn : String)
       (rp : List String) (ms : List (String × ℚ)) (notes : String)
       (recipe : Models.Recipe) (n0 : String) (a0 : ℚ) (r0 : Models.Reagent),
       getKey? s.recipes rn = some recipe →
       Labsys.checkAvail s.inventory_manager.reagents recipe.reagents = true →
       rp.isEmpty = false →
       (Labsys.replayResults (Labsys.newExperiment recipe rp now) ms).2 =
         .ok () →
       (recipe.reagents.map Prod.fst).Nodup →
       (n0, a0) ∈ recipe.reagents →
       getKey? s.inventory_manager.reagents n0 = some r0 →
       0 ≤ r0.inventory - a0 →
       (Labsys.LaboratorySystem.perform_experiment s now rn rp ms notes).2 =
         .error .attributeError ∧
       (Labsys.LaboratorySystem.perform_experiment s now rn rp ms
         notes).1.result_manager = s.result_manager ∧
       ∃ r', getKey? (Labsys.LaboratorySystem.perform_experiment s now rn rp
           ms notes).1.inventory_manager.reagents n0 = some r' ∧
         r'.inventory = r0.inventory - a0) := by
  constructor
  · intro rm e notes
    rfl
  · intro s now rn rp ms notes recipe n0 a0 r0 hrec havail hrp hreplay hnd
      hmem hget hstock
    have hr : Labsys.replayResults (Labsys.newExperiment recipe rp now) ms =
        ((Labsys.replayResults (Labsys.newExperiment recipe rp now) ms).1,
         .ok ()) := by
      rw [← hreplay]
    have hperf : Labsys.LaboratorySystem.perform_experiment s now rn rp ms
        notes = ({ s with inventory_manager := (Labsys.debitReagents now.day
          rn s.inventory_manager recipe.reagents) }, .error .attributeError) := by
      unfold Labsys.LaboratorySystem.perform_experiment
      simp only [hrec, havail, hrp]
      rw [hr]
      rfl
    rw [hperf]
    refine ⟨rfl, rfl, ?_⟩
    refine ⟨(Models.Reagent.update_inventory r0 now.day (-a0)
      ("Usado en experimento: " ++ rn)).1, ?_, ?_⟩
    · exact Labsys.debitReagents_getKey_mem now.day rn s.inventory_manager
        recipe.reagents n0 a0 r0 hnd hmem hget
    · have h0 : 0 ≤ r0.inventory + (-a0) := by linarith
      have := (Models.Reagent.update_inventory_applies r0 now.day (-a0)
        ("Usado en experimento: " ++ rn) h0).1
      rw [this]
      ring

/-- C7 witness: the theorem applied to a concrete split-variant system —
reagent `Z` is debited from 9 to 5 and the call raises AttributeError. -/
theorem C7_witness :
    (Labsys.LaboratorySystem.perform_experiment sC7 nowC7 "R3" ["Ana"] []
      "").2 = .error .attributeError ∧
    (Labsys.LaboratorySystem.perform_experiment sC7 nowC7 "R3" ["Ana"] []
      "").1.result_manager = sC7.result_manager ∧
    ∃ r', getKey? (Labsys.LaboratorySystem.perform_experiment sC7 nowC7 "R3"
        ["Ana"] [] "").1.inventory_manager.reagents "Z" = some r' ∧
      r'.inventory = rgC7.inventory - 4 :=
  C7_add_result_attribute_error.2 sC7 nowC7 "R3" ["Ana"] [] "" rcC7 "Z" 4 rgC7
    rfl (by norm_num [Labsys.checkAvail, sC7, rcC7, rgC7, getKey?]) rfl rfl
    (by simp [rcC7]) (by simp [rcC7]) rfl (by norm_num [rgC7])

/-- C8 (amended): the monolithic `is_expired` is exactly the claimed
inclusive date comparison (true iff the current date is on or after the
expiry date; false with no expiry date). The split variant compares the full
`datetime.now()` timestamp strictly against midnight of the expiry date, so
on the expiry date itself it is true at every instant after midnight but
false at exactly midnight (see the counterexample). -/
theorem C8_is_expired_amended :
    (∀ (r : Mono.Reagent) (today : Int),
       Mono.Reagent.is_expired r today = true ↔
         ∃ e, r.expiry_date = some e ∧ e ≤ today) ∧
    (∀ (r : Models.Reagent) (now : PyDateTime),
       Models.Reagent.is_expired r now = true ↔
         ∃ e, r.expiry_date = some e ∧
           (e < now.day ∨ (e = now.day ∧ 0 < now.usec))) := by
  constructor
  · intro r today
    unfold Mono.Reagent.is_expired
    rcases hx : r.expiry_date with _ | e
    · simp
    · simp [hx]
  · intro r now
    unfold Models.Reagent.is_expired
    rcases hx : r.expiry_date with _ | e
    · simp
    · simp [hx]

/-- C8 counterexample: at exactly midnight of its expiry day (day 19723,
2024-01-01 00:00:00) the split-variant reagent is NOT reported expired,
though the claim (current date on or after expiry date) requires true. -/
theorem C8_counterexample_midnight_instant :
    rC8.expiry_date = some 19723 ∧ nowC8.day = 19723 ∧
    Models.Reagent.is_expired rC8 nowC8 = false :=
  ⟨rfl, rfl, rfl⟩

/-- C8 witness: the amended theorem applied to a concrete monolithic reagent
on its expiry date. -/
theorem C8_witness : Mono.Reagent.is_expired rC8w 19723 = true :=
  (C8_is_expired_amended.1 rC8w 19723).mpr ⟨19723, rfl, le_refl 19723⟩

/-- C9 (amended): the monolithic `place_order` fails (recording nothing) when
the reagent or the supplier is unknown, and otherwise appends exactly one
order with status `pendiente`, expected delivery = order date + 7 days, and
id `ORD-<timestamp>` (so ids collide exactly for orders placed in the same
second). The split-variant manager checks nothing and appends the order
unconditionally (see the counterexample), with no expected-delivery date. -/
theorem C9_place_order_amended :
    (∀ (s : Mono.LabState) (ts : Nat) (today : Int) (rn : String) (qty : ℚ)
       (sn : String), getKey? s.reagents rn = none →
         Mono.place_order s ts today rn qty sn = (s, .reagentNotFound)) ∧
    (∀ (s : Mono.LabState) (ts : Nat) (today : Int) (rn : String) (qty : ℚ)
       (sn : String) (r : Mono.Reagent), getKey? s.reagents rn = some r →
       getKey? s.suppliers sn = none →
         Mono.place_order s ts today rn qty sn = (s, .supplierNotFound)) ∧
    (∀ (s : Mono.LabState) (ts : Nat) (today : Int) (rn : String) (qty : ℚ)
       (sn : String) (r : Mono.Reagent) (sp : Mono.Supplier),
       getKey? s.reagents rn = some r → getKey? s.suppliers sn = some sp →
         ∃ o : Mono.Order,
           Mono.place_order s ts today rn qty sn =
             ({ s with reagents := (setKey s.reagents rn
               { r with orders := r.orders ++ [o] }) }, .ok o) ∧
           o.status = "pendiente" ∧ o.expected_delivery = today + 7 ∧
           o.order_id = "ORD-" ++ toString ts ∧ o.order_date = today ∧
           o.reagent_name = rn ∧ o.quantity = qty ∧ o.supplier_name = sn) ∧
    (∀ (im : Managers.InventoryManager) (today : Int) (rn : String) (qty : ℚ)
       (sn : String),
       (Managers.InventoryManager.place_order im today rn qty
         sn).1.order_history = im.order_history ++
           [(Managers.InventoryManager.place_order im today rn qty sn).2]) := by
  refine ⟨?_, ?_, ?_, ?_⟩
  · intro s ts today rn qty sn h
    unfold Mono.place_order
    rw [h]
  · intro s ts today rn qty sn r hr hs
    unfold Mono.place_order
    simp only [hr, hs]
  · intro s ts today rn qty sn r sp hr hs
    refine ⟨⟨"ORD-" ++ toString ts, rn, qty, sn, today, "pendiente",
      today + 7⟩, ?_, rfl, rfl, rfl, rfl, rfl, rfl, rfl⟩
    unfold Mono.place_order
    simp only [hr, hs]
  · intro im today rn qty sn
    rfl

/-- C9 counterexample: the split-variant `place_order` on a manager that
knows neither reagent `X` nor supplier `S` still records one pending order —
the claim requires a NotFound failure with no order recorded. -/
theorem C9_counterexample_split_no_checks :
    getKey? imC9.reagents "X" = none ∧
    getKey? imC9.suppliers "S" = none ∧
    (Managers.InventoryManager.place_order imC9 0 "X" 5 "S").1.order_history.length = 1 ∧
    (Managers.InventoryManager.place_order imC9 0 "X" 5 "S").2.status = "pending" :=
  ⟨rfl, rfl, rfl, rfl⟩

/-- C9 witness: the amended theorem applied to a concrete monolithic state
with a known reagent and supplier. -/
theorem C9_witness :
    ∃ o : Mono.Order,
      Mono.place_order sC9 77 5 "X" 2 "S" =
        ({ sC9 with reagents := (setKey sC9.reagents "X"
          { rgC9 with orders := rgC9.orders ++ [o] }) }, .ok o) ∧
      o.status = "pendiente" ∧ o.expected_delivery = 5 + 7 ∧
      o.order_id = "ORD-" ++ toString 77 ∧ o.order_date = 5 ∧
      o.reagent_name = "X" ∧ o.quantity = 2 ∧ o.supplier_name = "S" :=
  C9_place_order_amended.2.2.1 sC9 77 5 "X" 2 "S" rgC9 spC9 rfl rfl

/-- C10 (amended): for a measurement declared with range `[lo, hi]` whose
midpoint is nonzero, the split-variant `record_result` is total and stores
the value, `is_valid = (lo ≤ v ≤ hi)` and
`deviation = (v - mid) / mid * 100` with `mid = (lo+hi)/2`. When the midpoint
is 0 the division is NOT guarded and raises ZeroDivisionError (see the
counterexample). -/
theorem C10_record_result_amended :
    ∀ (e : Models.Experiment) (m : String) (v lo hi : ℚ),
      getKey? e.recipe.expected_results m = some (lo, hi) →
      lo + hi ≠ 0 →
      (Models.Experiment.record_result e m v).2 =
        .ok (decide (lo ≤ v ∧ v ≤ hi)) ∧
      getKey? (Models.Experiment.record_result e m v).1.results m = some v ∧
      getKey? (Models.Experiment.record_result e m v).1.measurement_validations
        m = some ⟨v, decide (lo ≤ v ∧ v ≤ hi),
          ((v - (lo + hi) / 2) / ((lo + hi) / 2)) * 100, (lo, hi)⟩ := by
  intro e m v lo hi hget hmid
  have htarget : ¬ ((lo + hi) / 2 = 0) := by
    simp [div_eq_zero_iff]
    exact hmid
  unfold Models.Experiment.record_result
  rw [hget]
  simp only [if_neg htarget]
  refine ⟨trivial, ?_, ?_⟩
  · exact getKey?_setKey_self _ _ _
  · exact getKey?_setKey_self _ _ _

/-- C10 counterexample: recording `pH = 1` against the declared range
`[-7, 7]` (midpoint 0) raises an unhandled ZeroDivisionError — the claim
says this case is guarded. -/
theorem C10_counterexample_zero_midpoint :
    getKey? eC10.recipe.expected_results "pH" = some (-7, 7) ∧
    (Models.Experiment.record_result eC10 "pH" 1).2 =
      .error .zeroDivisionError := by
  refine ⟨rfl, ?_⟩
  norm_num [Models.Experiment.record_result, eC10, rcC10, getKey?]

/-- C10 witness: the amended theorem applied to a concrete experiment with
range `[6, 8]`. -/
theorem C10_witness :
    (Models.Experiment.record_result eC10w "pH" 7).2 =
      .ok (decide ((6 : ℚ) ≤ 7 ∧ (7 : ℚ) ≤ 8)) ∧
    getKey? (Models.Experiment.record_result eC10w "pH" 7).1.results "pH" =
      some 7 ∧
    getKey? (Models.Experiment.record_result eC10w "pH"
      7).1.measurement_validations "pH" = some ⟨7,
        decide ((6 : ℚ) ≤ 7 ∧ (7 : ℚ) ≤ 8),
        ((7 - ((6 : ℚ) + 8) / 2) / (((6 : ℚ) + 8) / 2)) * 100, (6, 8)⟩ :=
  C10_record_result_amended eC10w "pH" 7 6 8 rfl (by norm_num)
